import Mathlib

/-!
Verification of the windtools-mcp server core (path confinement and the
file tools of `src/windtools_mcp/server.py`) against its specification.

The Python code is shallowly embedded: Python strings are Lean `String`s
and every string/path operation is implemented by structural recursion on
the underlying character list, following the CPython `posixpath`
implementations (`normpath`, `join`, `dirname`, `abspath`, `realpath`).
The filesystem is an explicit finite map from absolute normalized paths to
entries (file with content / utf8-decodability / accessibility, directory
with accessibility, symlink with target).  Exceptions are embedded as
`Except` values; the tool-level functions return plain `String`s exactly
like the decorated Python functions.
-/

/-- Python `prefix.isPrefixOf`-style test on character lists:
`listPre pre l` is true iff `pre` is an initial segment of `l`. -/
def listPre : List Char → List Char → Bool
  | [], _ => true
  | _ :: _, [] => false
  | a :: as, b :: bs => a = b && listPre as bs

/-- Python substring test (`needle in hay`) on character lists. -/
def listSub (n : List Char) (h : List Char) : Bool :=
  if listPre n h then true
  else match h with
    | [] => false
    | _ :: t => listSub n t

/-- Python `s.startswith(pre)`. -/
def pyStartswith (s pre : String) : Bool := listPre pre.data s.data

/-- Embedding of `posixpath.isabs`: the path begins with a slash. -/
def isabs (p : String) : Bool :=
  match p.data with
  | [] => false
  | c :: _ => c = '/'

/-- Python `s.split('/')` on character lists (keeps empty pieces). -/
def splitChar (c : Char) : List Char → List (List Char)
  | [] => [[]]
  | x :: xs =>
    let r := splitChar c xs
    if x = c then [] :: r
    else
      match r with
      | [] => [[x]]
      | h :: t => (x :: h) :: t

/-- Python `'/'.join(pieces)` on character lists. -/
def intercalChar (c : Char) : List (List Char) → List Char
  | [] => []
  | [x] => x
  | x :: xs => x ++ c :: intercalChar c xs

/-- Python `str.lower`, restricted to the ASCII case handled by
`Char.toLower` (all paths and patterns in this development are ASCII). -/
def lowerChars (l : List Char) : List Char := l.map Char.toLower

/-- The component loop of CPython `posixpath.normpath`: `slashes` is the
number of initial slashes, `acc` the components accepted so far. -/
def normpathComps (slashes : Nat) : List (List Char) → List (List Char) → List (List Char)
  | acc, [] => acc
  | acc, comp :: rest =>
    if comp = [] ∨ comp = ['.'] then normpathComps slashes acc rest
    else if comp ≠ ['.', '.'] ∨ (slashes = 0 ∧ acc = []) ∨ acc.getLast? = some ['.', '.'] then
      normpathComps slashes (acc ++ [comp]) rest
    else if acc ≠ [] then normpathComps slashes acc.dropLast rest
    else normpathComps slashes acc rest

/-- CPython `posixpath.normpath`. -/
def normpath (p : String) : String :=
  if p = "" then "."
  else
    let d := p.data
    let slashes : Nat :=
      if listPre ['/'] d then
        (if listPre ['/', '/'] d ∧ ¬ listPre ['/', '/', '/'] d then 2 else 1)
      else 0
    let comps := splitChar '/' d
    let nc := normpathComps slashes [] comps
    let out := List.replicate slashes '/' ++ intercalChar '/' nc
    if out = [] then "." else String.mk out

/-- Embedding of `normalize_path` from the source: `os.path.normpath(p)`. -/
def normalize_path (p : String) : String := normpath p

/-- Two-argument `posixpath.join(a, b)`: an absolute `b` discards `a`. -/
def joinPath (a b : String) : String :=
  if pyStartswith b "/" then b
  else if a = "" ∨ a.data.getLast? = some '/' then a ++ b
  else a ++ "/" ++ b

/-- Embedding of `expand_home` from the source; `home` stands for the value of
`os.path.expanduser("~")` in the running process. -/
def expand_home (home : String) (filepath : String) : String :=
  if pyStartswith filepath "~/" ∨ filepath = "~" then
    joinPath home (if filepath ≠ "~" then String.mk (filepath.data.drop 1) else "")
  else filepath

/-- Embedding of `posixpath.abspath`: join onto the current directory when relative,
then normalize. -/
def abspath (cwd p : String) : String :=
  if isabs p then normpath p else normpath (joinPath cwd p)

/-- Index just past the last slash of a character list (0 when none),
as used by `posixpath.dirname` / `posixpath.basename`. -/
def rfindSlashIdx (d : List Char) : Nat :=
  (d.foldl (fun (st : Nat × Nat) c =>
    ((if c = '/' then st.2 + 1 else st.1), st.2 + 1)) (0, 0)).1

/-- Drop trailing slashes (Python `head.rstrip('/')`). -/
def rstripSlash (d : List Char) : List Char :=
  ((d.reverse).dropWhile (fun c => c = '/')).reverse

/-- Embedding of `posixpath.dirname`. -/
def dirname (p : String) : String :=
  let d := p.data
  let i := rfindSlashIdx d
  let head := d.take i
  if head ≠ [] ∧ ¬ head.all (fun c => c = '/') then String.mk (rstripSlash head)
  else String.mk head

/-- Embedding of `posixpath.basename`. -/
def basename (p : String) : String :=
  String.mk (p.data.drop (rfindSlashIdx p.data))

/-- Filesystem entries: regular files carry their text content, whether
that content decodes as UTF-8, and whether the file is accessible
(readable/statable); directories carry whether they may be listed;
symlinks carry their target string. -/
inductive FSEntry where
  | file (content : String) (utf8ok : Bool) (acc : Bool)
  | dir (acc : Bool)
  | symlink (target : String)
deriving DecidableEq, Repr

/-- A filesystem: a finite association of absolute normalized paths to
entries. -/
abbrev FS := List (String × FSEntry)

/-- Look a path up in the filesystem map. -/
def lookupFS (fs : FS) (p : String) : Option FSEntry :=
  match List.find? (fun e => decide (e.1 = p)) fs with
  | some e => some e.2
  | none => none

/-- One step of CPython symlink resolution (`posixpath.realpath` with the
default `strict=False`): components are resolved left to right against
the filesystem; `..` strips the last resolved component; a symlink splices
its target's components in; a missing component is kept verbatim and
resolution continues (never an error).  `fuel` bounds symlink chains; the
claims below never exercise symlink loops. -/
def realpathGo (fs : FS) : Nat → List (List Char) → List Char → List Char
  | 0, comps, acc => comps.foldl (fun a c => a ++ '/' :: c) acc
  | _ + 1, [], acc => acc
  | fuel + 1, c :: rest, acc =>
    if c = [] ∨ c = ['.'] then realpathGo fs fuel rest acc
    else if c = ['.', '.'] then realpathGo fs fuel rest (dirname (String.mk acc)).data
    else
      let candidate := if acc = [] ∨ acc = ['/'] then '/' :: c else acc ++ '/' :: c
      match lookupFS fs (String.mk candidate) with
      | some (.symlink t) =>
        if isabs t then realpathGo fs fuel (splitChar '/' t.data ++ rest) []
        else realpathGo fs fuel (splitChar '/' t.data ++ rest) acc
      | _ => realpathGo fs fuel rest candidate

/-- Embedding of `os.path.realpath(p)` (POSIX, `strict=False`). -/
def realpath (fs : FS) (cwd p : String) : String :=
  let q := if isabs p then p else joinPath cwd p
  let r := realpathGo fs (q.data.length + 40 * fs.length + 100) (splitChar '/' q.data) []
  if r = [] then "/" else String.mk r

/-- The `os.path.realpath` call of `validate_path` as an `Option`:
with its default arguments CPython's `realpath` resolves as far as
possible and appends the unresolved remainder, and never raises
`FileNotFoundError`, so this is always `some`.  The `none` arm below is
kept so that `validate_path` mirrors the source's `try/except` structure. -/
def realpath_try (fs : FS) (cwd p : String) : Option String :=
  some (realpath fs cwd p)

/-- Process-wide string context of the Python process: `cwd` is
`os.getcwd()`, `home` is `os.path.expanduser("~")`. -/
structure Env where
  cwd : String
  home : String
deriving Repr

/-- Embedding of `validate_path` from the source (lines 62-116 of `server.py`). -/
def validate_path (env : Env) (fs : FS) (path_to_check working_dir : String) :
    Except String String :=
  if working_dir = "" then
    .error "No hay directorio de trabajo configurado. Utiliza set_working_directory primero."
  else
    let expanded_path := expand_home env.home path_to_check
    let absolute_path := abspath env.cwd expanded_path
    let normalized_path := normalize_path absolute_path
    let normalized_working_dir := normalize_path working_dir
    if ¬ pyStartswith normalized_path normalized_working_dir then
      .error ("Acceso denegado - ruta fuera del directorio de trabajo: " ++ absolute_path ++
        " no está en " ++ normalized_working_dir)
    else
      match realpath_try fs env.cwd absolute_path with
      | some real_path =>
        let normalized_real := normalize_path real_path
        if ¬ pyStartswith normalized_real normalized_working_dir then
          .error "Acceso denegado - destino de enlace simbólico fuera del directorio de trabajo"
        else .ok real_path
      | none =>
        let parent_dir := dirname absolute_path
        match realpath_try fs env.cwd parent_dir with
        | some real_parent =>
          let normalized_parent := normalize_path real_parent
          if ¬ pyStartswith normalized_parent normalized_working_dir then
            .error "Acceso denegado - directorio padre fuera del directorio de trabajo"
          else .ok absolute_path
        | none => .error ("El directorio padre no existe: " ++ parent_dir)

/-- Spec-side containment: `p` is equal to `root` or a descendant of it at
a path-segment boundary ("separator-aware" containment of spec section 4.2). -/
def underRootSeg (root p : String) : Bool :=
  decide (p = root) || listPre (root.data ++ ['/']) p.data

/-- Embedding of `os.path.exists(p)`: the path, after symlink resolution, names an
entry of the filesystem. -/
def pathExists (fs : FS) (cwd p : String) : Bool :=
  (lookupFS fs (realpath fs cwd p)).isSome

/-- Embedding of `os.path.isdir(p)` (follows symlinks). -/
def isdirFS (fs : FS) (cwd p : String) : Bool :=
  match lookupFS fs (realpath fs cwd p) with
  | some (.dir _) => true
  | _ => false

/-- Embedding of `os.path.isfile(p)` (follows symlinks). -/
def isfileFS (fs : FS) (cwd p : String) : Bool :=
  match lookupFS fs (realpath fs cwd p) with
  | some (.file _ _ _) => true
  | _ => false

/-- Embedding of `os.path.islink(p)` on the literal path. -/
def isSymlinkFS (fs : FS) (p : String) : Bool :=
  match lookupFS fs p with
  | some (.symlink _) => true
  | _ => false

/-- Embedding of `os.path.getsize` of a text file: its UTF-8 byte count. -/
def sizeBytes (c : String) : Nat := c.utf8ByteSize

/-- Python string comparison `a < b` / `a <= b` (code-point lexicographic). -/
def listLe : List Char → List Char → Bool
  | [], _ => true
  | _ :: _, [] => false
  | a :: as, b :: bs => if a = b then listLe as bs else decide (a < b)

/-- Strict code-point lexicographic order on strings. -/
def strLt (a b : String) : Bool := listLe a.data b.data && decide (a ≠ b)

/-- Stable insertion into a sorted list. -/
def insertSorted (x : String) : List String → List String
  | [] => [x]
  | y :: ys => if strLt x y then x :: y :: ys else y :: insertSorted x ys

/-- Python `sorted` on strings (stable, code-point order). -/
def sortStrings (l : List String) : List String := l.foldr insertSorted []

/-- Embedding of `os.listdir(d)` / `os.scandir(d)`: names of the immediate children of
`d` recorded in the filesystem, in filesystem order. -/
def childrenNames (fs : FS) (d : String) : List String :=
  fs.filterMap (fun e => if e.1 ≠ d ∧ dirname e.1 = d then some (basename e.1) else none)

/-- Mutable process state of the server: current directory (`os.getcwd()`),
home directory, filesystem, and `ServerContext.working_directory`. -/
structure SState where
  cwd : String
  home : String
  fs : FS
  working_directory : Option String
deriving Repr

/-- The string context of a state. -/
def envOf (st : SState) : Env := ⟨st.cwd, st.home⟩

/-- Python truthiness of `server_ctx.working_directory`: `None` and the
empty string are both falsy. -/
def wdOf (st : SState) : Option String :=
  match st.working_directory with
  | some w => if w = "" then none else some w
  | none => none

/-- The message every tool returns when no working directory is set. -/
def noWdMsg : String :=
  "No se ha establecido un directorio de trabajo. Utiliza set_working_directory primero."

/-- All ancestor prefixes of an absolute path, shortest first, ending with
the path itself. -/
def ancestorPaths (p : String) : List String :=
  let comps := (splitChar '/' p.data).filter (fun c => c ≠ [] ∧ c ≠ ['.'])
  (comps.foldl (fun (st : String × List String) c =>
    let q := st.1 ++ "/" ++ String.mk c
    (q, st.2 ++ [q])) ("", [])).2

/-- Embedding of `os.makedirs(p, exist_ok=True)`: create every missing ancestor of `p`
as an accessible directory.  Creation failures (no concept of creation
permission in this filesystem model) do not occur. -/
def makedirsFS (fs : FS) (cwd p : String) : FS :=
  (ancestorPaths (abspath cwd p)).foldl
    (fun f a => if (lookupFS f a).isSome then f else f ++ [(a, .dir true)]) fs

/-- Overwrite or create the file at (resolved) path `p` with `content`
(the effect of `open(p, 'w', encoding='utf-8').write(content)`). -/
def setFileFS (fs : FS) (p : String) (content : String) : FS :=
  if (lookupFS fs p).isSome then
    fs.map (fun e => if e.1 = p then (p, .file content true true) else e)
  else fs ++ [(p, .file content true true)]

/-- Embedding of `set_working_directory` from the source (lines 170-211): normalize the
argument, create the directory when absent, store it, and `os.chdir` to it.
The `except` around `os.makedirs` is unreachable in this model (creation
always succeeds). -/
def set_working_directory (st : SState) (directory_path : String) : String × SState :=
  let expanded_path := expand_home st.home directory_path
  let absolute_path := abspath st.cwd expanded_path
  let normalized_path := normalize_path absolute_path
  if ¬ pathExists st.fs st.cwd normalized_path then
    let fs1 := makedirsFS st.fs st.cwd normalized_path
    ("Directorio de trabajo establecido: " ++ normalized_path,
      { st with fs := fs1, working_directory := some normalized_path, cwd := normalized_path })
  else if ¬ isdirFS st.fs st.cwd normalized_path then
    ("La ruta no es un directorio: " ++ normalized_path, st)
  else
    ("Directorio de trabajo establecido: " ++ normalized_path,
      { st with working_directory := some normalized_path, cwd := normalized_path })

/-- Embedding of `get_working_directory` from the source (lines 214-225). -/
def get_working_directory (st : SState) : String :=
  match wdOf st with
  | some w => w
  | none => noWdMsg

/-- One row of the `list_dir` listing for child `item` of `valid`:
directories report their child count (degrading to "(sin acceso)" on a
`PermissionError`, the only exception the per-entry `try` catches), files
report their byte size likewise; any other exception (e.g. a broken
symlink making `os.path.getsize` raise `FileNotFoundError`) escapes to the
outer handler and aborts the whole listing. -/
def renderRow (fs : FS) (cwd valid item : String) : Except String String :=
  let item_path := joinPath valid item
  if isdirFS fs cwd item_path then
    match lookupFS fs (realpath fs cwd item_path) with
    | some (.dir true) =>
      .ok (item ++ "\tdir\t" ++
        toString (childrenNames fs (realpath fs cwd item_path)).length ++ " elementos")
    | some (.dir false) => .ok (item ++ "\tdir\t(sin acceso)")
    | _ => .error ("Error al listar directorio: " ++ item_path)
  else
    match lookupFS fs (realpath fs cwd item_path) with
    | some (.file c _ true) => .ok (item ++ "\tfile\t" ++ toString (sizeBytes c) ++ " bytes")
    | some (.file _ _ false) => .ok (item ++ "\tfile\t(sin acceso)")
    | _ => .error ("Error al listar directorio: no existe " ++ item_path)

/-- Render the rows of all items; the first escaping exception aborts the
whole listing, as in the source's outer `except`. -/
def renderRows (fs : FS) (cwd valid : String) : List String → Except String (List String)
  | [] => .ok []
  | it :: rest =>
    match renderRow fs cwd valid it with
    | .error e => .error e
    | .ok r =>
      match renderRows fs cwd valid rest with
      | .error e => .error e
      | .ok rs => .ok (r :: rs)

/-- Python `sep.join(l)`. -/
def intercalStr (sep : String) : List String → String
  | [] => ""
  | [x] => x
  | x :: xs => x ++ sep ++ intercalStr sep xs

/-- Embedding of `list_dir` from the source (lines 228-287). -/
def list_dir (st : SState) (subdirectory : String) : String :=
  match wdOf st with
  | none => noWdMsg
  | some w =>
    let directory_path := if subdirectory ≠ "" then joinPath w subdirectory else w
    match validate_path (envOf st) st.fs directory_path w with
    | .error e => "Error: " ++ e
    | .ok valid_path =>
      if ¬ (pathExists st.fs st.cwd valid_path ∧ isdirFS st.fs st.cwd valid_path) then
        "Directorio no encontrado o no es un directorio: " ++ valid_path
      else
        match lookupFS st.fs (realpath st.fs st.cwd valid_path) with
        | some (.dir false) => "Error al listar directorio: permiso denegado: " ++ valid_path
        | _ =>
          let items := sortStrings (childrenNames st.fs (realpath st.fs st.cwd valid_path))
          match renderRows st.fs st.cwd valid_path items with
          | .error e => e
          | .ok [] => "El directorio " ++ valid_path ++ " está vacío"
          | .ok rows => intercalStr "\n" rows

/-- Embedding of `read_file` from the source (lines 290-332). -/
def read_file (st : SState) (file_path : String) : String :=
  match wdOf st with
  | none => noWdMsg
  | some w =>
    let full_path := if ¬ isabs file_path then joinPath w file_path else file_path
    match validate_path (envOf st) st.fs full_path w with
    | .error e => "Error: " ++ e
    | .ok valid_path =>
      if ¬ pathExists st.fs st.cwd valid_path then "El archivo no existe: " ++ valid_path
      else if ¬ isfileFS st.fs st.cwd valid_path then "La ruta no es un archivo: " ++ valid_path
      else
        match lookupFS st.fs (realpath st.fs st.cwd valid_path) with
        | some (.file c u a) =>
          if ¬ a then "Error al leer archivo: permiso denegado: " ++ valid_path
          else if ¬ u then
            "Error: El archivo no está en formato texto o tiene una codificación no soportada"
          else c
        | _ => "El archivo no existe: " ++ valid_path

/-- Embedding of `write_file` from the source (lines 335-378): no overwrite check of
any kind — an existing regular file is simply truncated and rewritten. -/
def write_file (st : SState) (file_path content : String) : String × SState :=
  match wdOf st with
  | none => (noWdMsg, st)
  | some w =>
    let full_path := if ¬ isabs file_path then joinPath w file_path else file_path
    match validate_path (envOf st) st.fs full_path w with
    | .error e => ("Error: " ++ e, st)
    | .ok valid_path =>
      let parent_dir := dirname valid_path
      let fs1 :=
        if parent_dir ≠ "" ∧ ¬ pathExists st.fs st.cwd parent_dir then
          makedirsFS st.fs st.cwd parent_dir
        else st.fs
      if isdirFS fs1 st.cwd valid_path then
        ("Error al escribir archivo: es un directorio: " ++ valid_path, st)
      else
        let fs2 := setFileFS fs1 (realpath fs1 st.cwd valid_path) content
        ("Archivo guardado correctamente: " ++ file_path, { st with fs := fs2 })

/-- Embedding of `create_directory` from the source (lines 381-416). -/
def create_directory (st : SState) (directory_path : String) : String × SState :=
  match wdOf st with
  | none => (noWdMsg, st)
  | some w =>
    let full_path := if ¬ isabs directory_path then joinPath w directory_path else directory_path
    match validate_path (envOf st) st.fs full_path w with
    | .error e => ("Error: " ++ e, st)
    | .ok valid_path =>
      ("Directorio creado correctamente: " ++ directory_path,
        { st with fs := makedirsFS st.fs st.cwd valid_path })

/-- Length of the common leading run of two component lists
(`os.path.commonprefix` on split lists, as used by `posixpath.relpath`). -/
def commonLen : List (List Char) → List (List Char) → Nat
  | a :: as, b :: bs => if a = b then commonLen as bs + 1 else 0
  | _, _ => 0

/-- Embedding of `posixpath.relpath(p, start)`. -/
def relpathPosix (cwd p start : String) : String :=
  let pl := (splitChar '/' (abspath cwd p).data).filter (fun c => c ≠ [])
  let sl := (splitChar '/' (abspath cwd start).data).filter (fun c => c ≠ [])
  let i := commonLen sl pl
  let rel := List.replicate (sl.length - i) ['.', '.'] ++ pl.drop i
  if rel = [] then "." else String.mk (intercalChar '/' rel)

/-- Embedding of `os.walk(top)` with the default `topdown=True, followlinks=False`:
yields `(top, dirs, files)` (directory membership decided by `os.path.isdir`,
which follows symlinks), then recurses into the non-symlink directories in
order.  `fuel` bounds the depth. -/
def walkFS (fs : FS) (cwd : String) : Nat → String → List (String × List String × List String)
  | 0, _ => []
  | fuel + 1, top =>
    match lookupFS fs top with
    | some (.dir true) =>
      let names := childrenNames fs top
      let dirs := names.filter (fun n => isdirFS fs cwd (joinPath top n))
      let files := names.filter (fun n => ¬ isdirFS fs cwd (joinPath top n))
      (top, dirs, files) ::
        (dirs.filter (fun n => ¬ isSymlinkFS fs (joinPath top n))).flatMap
          (fun n => walkFS fs cwd fuel (joinPath top n))
    | _ => []

/-- A single quote character, built by code point to keep it out of
string literals. -/
def squote : String := String.mk [Char.ofNat 39]

/-- The result rows of `search_files`: walk the validated path and report
every file or directory name containing the pattern case-insensitively,
as a path relative to the working directory tagged with its kind. -/
def searchRows (fs : FS) (cwd w pattern valid : String) : List String :=
  (walkFS fs cwd (fs.length + 1) valid).flatMap (fun node =>
    ((node.2.2 ++ node.2.1).filter
      (fun name => listSub (lowerChars pattern.data) (lowerChars name.data))).map
      (fun name =>
        relpathPosix cwd (joinPath node.1 name) w ++ "\t" ++
          (if isdirFS fs cwd (joinPath node.1 name) then "dir" else "file")))

/-- Embedding of `search_files` from the source (lines 419-466). -/
def search_files (st : SState) (pattern subdirectory : String) : String :=
  match wdOf st with
  | none => noWdMsg
  | some w =>
    let search_path := if subdirectory ≠ "" then joinPath w subdirectory else w
    match validate_path (envOf st) st.fs search_path w with
    | .error e => "Error: " ++ e
    | .ok valid_path =>
      let results := searchRows st.fs st.cwd w pattern valid_path
      if results = [] then "No se encontraron coincidencias para " ++ squote ++ pattern ++ squote
      else intercalStr "\n" results

/-- Output-window anchor of `command_status`. -/
inductive Priority where
  | top
  | bottom
deriving DecidableEq, Repr

/-- Modelled from the spec: the Output Windower of `command_status`
(section 4.5); the function itself is absent from the server variant under
`src/` (only `tests/test_unit.py` exercises it).  "The full accumulated
output is concatenated in arrival order; `priority=top` returns at most
the first `charBudget` characters, `priority=bottom` returns at most the
last `charBudget` characters." -/
def command_status_output (chunks : List String) (priority : Priority) (charBudget : Nat) : String :=
  let full := chunks.foldl (fun a c => a ++ c) ""
  match priority with
  | .top => String.mk (full.data.take charBudget)
  | .bottom => String.mk (full.data.drop (full.data.length - charBudget))

/-- Variant of `validate_path` with the `except FileNotFoundError` fallback of source
lines 103-116 removed.  Because `os.path.realpath` never raises
`FileNotFoundError` with its default arguments, the source function
provably coincides with this one, so the parent-directory fallback is
dead code. -/
def validate_path_resolved (env : Env) (fs : FS) (path_to_check working_dir : String) :
    Except String String :=
  if working_dir = "" then
    .error "No hay directorio de trabajo configurado. Utiliza set_working_directory primero."
  else
    let expanded_path := expand_home env.home path_to_check
    let absolute_path := abspath env.cwd expanded_path
    let normalized_path := normalize_path absolute_path
    let normalized_working_dir := normalize_path working_dir
    if ¬ pyStartswith normalized_path normalized_working_dir then
      .error ("Acceso denegado - ruta fuera del directorio de trabajo: " ++ absolute_path ++
        " no está en " ++ normalized_working_dir)
    else
      let real_path := realpath fs env.cwd absolute_path
      if ¬ pyStartswith (normalize_path real_path) normalized_working_dir then
        .error "Acceso denegado - destino de enlace simbólico fuera del directorio de trabajo"
      else .ok real_path

/-- Counterexample filesystem for the symlink-escape claim: `/ws/link` is a
symlink inside the root `/ws` whose target `/wsEvil` lies outside the root
at a segment boundary but shares `/ws` as a character prefix. -/
def fsSymEvil : FS :=
  [("/", .dir true), ("/ws", .dir true), ("/ws/link", .symlink "/wsEvil"),
   ("/wsEvil", .dir true)]

/-- Filesystem for the C2 witness: a symlink inside the root pointing back
inside the root. -/
def fsSymOk : FS :=
  [("/", .dir true), ("/ws", .dir true), ("/ws/link2", .symlink "/ws/real"),
   ("/ws/real", .dir true)]

/-- Filesystem for the overwrite scenario: the working root `/ws` contains
the file `file1.txt` with the fixture content of `tests/test_unit.py`. -/
def fsOverwrite : FS :=
  [("/", .dir true), ("/ws", .dir true),
   ("/ws/file1.txt", .file "This is a test file" true true)]

/-- Server state for the overwrite scenario. -/
def stOverwrite : SState := ⟨"/ws", "/home/user", fsOverwrite, some "/ws"⟩

/-- Server state with no working directory configured. -/
def stNoWd : SState := ⟨"/", "/home/user", [("/", .dir true)], none⟩

/-- Filesystem with a listable directory `open`, an unreadable directory
`closed` and a regular file `a.txt` under the root `/ws`. -/
def fsPerm : FS :=
  [("/", .dir true), ("/ws", .dir true), ("/ws/open", .dir true), ("/ws/closed", .dir false),
   ("/ws/closed/secret.txt", .file "s" true true), ("/ws/a.txt", .file "hello" true true)]

/-- Server state for the permission-degradation scenario. -/
def stPerm : SState := ⟨"/ws", "/home/user", fsPerm, some "/ws"⟩

-- Development sanity checks (kept as anonymous examples).
example : normpath "/workspace/src/../src/a.txt" = "/workspace/src/a.txt" := by decide
example : normpath "/a//b/./c/" = "/a/b/c" := by decide
example : dirname "/a/b" = "/a" := by decide
example : dirname "/a" = "/" := by decide
example : basename "/a/b.txt" = "b.txt" := by decide
example : joinPath "/home/u" "/foo" = "/foo" := by decide
example : realpath [("/ws", .dir true), ("/ws/link", .symlink "/other")] "/" "/ws/link/x"
    = "/other/x" := by decide

/-- C1: the claim fails on the code.  `validate_path` tests containment with
a plain character-prefix `startswith` on the normalized path (and again on
the resolved path), not at a path-segment boundary: with configured root
`/workspace`, the path `/workspace2/x` — which lies outside the root at a
segment boundary — is admitted and returned, instead of being denied. -/
theorem validate_path_admits_character_prefix_sibling :
    validate_path ⟨"/", "/home/user"⟩ [("/", .dir true), ("/workspace", .dir true)]
        "/workspace2/x" "/workspace" = .ok "/workspace2/x" ∧
    underRootSeg "/workspace" (normalize_path (abspath "/" "/workspace2/x")) = false :=
  ⟨rfl, by decide⟩

/-- C3: the claim fails on the code.  For `~/rest`, `expand_home` computes
`os.path.join(home, filepath[1:])` where `filepath[1:]` is the absolute
string `/rest`, and `posixpath.join` discards its first argument when the
second is absolute: `expand_home("~/foo")` returns `/foo`, not the home
directory joined with `foo`. -/
theorem expand_home_discards_home :
    expand_home "/home/user" "~/foo" = "/foo" ∧
    joinPath "/home/user" "foo" = "/home/user/foo" ∧
    expand_home "/home/user" "~/foo" ≠ joinPath "/home/user" "foo" :=
  ⟨rfl, rfl, by decide⟩

/-- C5: the claim fails on the code.  CPython's `os.path.realpath` never
raises `FileNotFoundError` (its `strict` parameter defaults to `False`:
the path is resolved as far as possible and the remainder appended), so the
`except FileNotFoundError` parent-directory fallback of lines 103-116 is
unreachable: `validate_path` coincides with `validate_path_resolved`, which
has no parent fallback at all.  Concretely, for the not-yet-existing path
`/ws/a/b.txt` whose parent `/ws/a` does not exist either, the claim demands
a parent-not-found failure, but the code succeeds and returns the path
through the symlink-resolution branch. -/
theorem validate_path_parent_fallback_dead :
    (∀ (env : Env) (fs : FS) (p wd : String),
      validate_path env fs p wd = validate_path_resolved env fs p wd) ∧
    validate_path ⟨"/", "/home/user"⟩ [("/", .dir true), ("/ws", .dir true)]
        "/ws/a/b.txt" "/ws" = .ok "/ws/a/b.txt" ∧
    pathExists [("/", .dir true), ("/ws", .dir true)] "/" "/ws/a" = false :=
  ⟨fun _ _ _ _ => rfl, rfl, by decide⟩

/-- C2 counterexample: the existing symlink `/ws/link` points at `/wsEvil`,
which lies outside the root `/ws` (segment-boundary containment is false),
yet `validate_path` succeeds and returns it, because the symlink check is
also a character-prefix `startswith` and `/wsEvil` starts with `/ws`. -/
theorem validate_path_symlink_prefix_counterexample :
    validate_path ⟨"/", "/home/user"⟩ fsSymEvil "/ws/link" "/ws" = .ok "/wsEvil" ∧
    pathExists fsSymEvil "/" "/ws/link" = true ∧
    underRootSeg "/ws" (normalize_path "/ws/link") = true ∧
    underRootSeg "/ws" (realpath fsSymEvil "/" "/ws/link") = false :=
  ⟨rfl, by decide, by decide, by decide⟩

/-- C2 amended: for every path that passes the first containment test (with
"inside the root" read, as the code implements it, as the normalized root
being a character prefix of the normalized path), `validate_path` fails
with the symlink denial when the root is not a character prefix of the
normalized resolved real path, and returns the resolved (symlink-free)
path when it is. -/
theorem validate_path_symlink_resolution (env : Env) (fs : FS) (p wd : String)
    (hwd : wd ≠ "")
    (_hex : pathExists fs env.cwd (abspath env.cwd (expand_home env.home p)) = true)
    (hpre : pyStartswith (normalize_path (abspath env.cwd (expand_home env.home p)))
      (normalize_path wd) = true) :
    (pyStartswith (normalize_path (realpath fs env.cwd (abspath env.cwd (expand_home env.home p))))
        (normalize_path wd) = false →
      validate_path env fs p wd =
        .error "Acceso denegado - destino de enlace simbólico fuera del directorio de trabajo") ∧
    (pyStartswith (normalize_path (realpath fs env.cwd (abspath env.cwd (expand_home env.home p))))
        (normalize_path wd) = true →
      validate_path env fs p wd =
        .ok (realpath fs env.cwd (abspath env.cwd (expand_home env.home p)))) := by
  constructor <;> intro h <;> simp [validate_path, realpath_try, hwd, hpre, h]

/-- Witness for the amended C2 theorem at a concrete input. -/
theorem validate_path_symlink_resolution_witness :
    (("/ws" : String) ≠ "" ∧
      pathExists fsSymOk "/" (abspath "/" (expand_home "/home/user" "/ws/link2")) = true ∧
      pyStartswith (normalize_path (abspath "/" (expand_home "/home/user" "/ws/link2")))
        (normalize_path "/ws") = true) ∧
    ((pyStartswith
        (normalize_path (realpath fsSymOk "/" (abspath "/" (expand_home "/home/user" "/ws/link2"))))
        (normalize_path "/ws") = false →
      validate_path ⟨"/", "/home/user"⟩ fsSymOk "/ws/link2" "/ws" =
        .error "Acceso denegado - destino de enlace simbólico fuera del directorio de trabajo") ∧
    (pyStartswith
        (normalize_path (realpath fsSymOk "/" (abspath "/" (expand_home "/home/user" "/ws/link2"))))
        (normalize_path "/ws") = true →
      validate_path ⟨"/", "/home/user"⟩ fsSymOk "/ws/link2" "/ws" =
        .ok (realpath fsSymOk "/" (abspath "/" (expand_home "/home/user" "/ws/link2"))))) :=
  ⟨⟨by decide, by decide, by decide⟩,
    validate_path_symlink_resolution ⟨"/", "/home/user"⟩ fsSymOk "/ws/link2" "/ws"
      (by decide) (by decide) (by decide)⟩

/-- C4: the claim fails on the code.  `write_file` performs no existence or
overwrite check of any kind: called on the existing file `/ws/file1.txt`
(content "This is a test file") it reports success and silently replaces
the content, where the claim — backed by the repository's own test
`test_write_to_file_existing` and the spec — demands an already-exists
failure that leaves the content unchanged. -/
theorem write_file_overwrites_existing :
    lookupFS stOverwrite.fs "/ws/file1.txt" = some (.file "This is a test file" true true) ∧
    (write_file stOverwrite "/ws/file1.txt" "New content").1 =
      "Archivo guardado correctamente: /ws/file1.txt" ∧
    lookupFS (write_file stOverwrite "/ws/file1.txt" "New content").2.fs "/ws/file1.txt" =
      some (.file "New content" true true) ∧
    read_file (write_file stOverwrite "/ws/file1.txt" "New content").2 "file1.txt" =
      "New content" := by
  refine ⟨by decide, rfl, by decide, rfl⟩

/-- Concatenating strings by left fold yields the flattened character data
in arrival order. -/
theorem foldlAppend_data (l : List String) (init : String) :
    (l.foldl (fun a c => a ++ c) init).data = init.data ++ (l.map String.data).flatten := by
  induction l generalizing init with
  | nil => simp
  | cons x xs ih => simp [List.foldl, ih, String.data_append, List.append_assoc]

/-- C6: modelled from the spec (the `command_status` implementation is
absent from the server variant under `src/`; only its tests remain).  The
accumulated output chunks are concatenated in arrival order; `top` returns
a prefix of at most `n` characters, `bottom` a suffix of at most `n`
characters, and when the total output has at most `n` characters both
priorities return the full output. -/
theorem command_status_window_spec (chunks : List String) (n : Nat) :
    (chunks.foldl (fun a c => a ++ c) "").data = (chunks.map String.data).flatten ∧
    (command_status_output chunks .top n).data <+: (chunks.foldl (fun a c => a ++ c) "").data ∧
    (command_status_output chunks .top n).data.length =
      min n (chunks.foldl (fun a c => a ++ c) "").data.length ∧
    (command_status_output chunks .bottom n).data <:+ (chunks.foldl (fun a c => a ++ c) "").data ∧
    (command_status_output chunks .bottom n).data.length =
      min n (chunks.foldl (fun a c => a ++ c) "").data.length ∧
    ((chunks.foldl (fun a c => a ++ c) "").data.length ≤ n →
      command_status_output chunks .top n = chunks.foldl (fun a c => a ++ c) "" ∧
      command_status_output chunks .bottom n = chunks.foldl (fun a c => a ++ c) "") := by
  refine ⟨by simpa using foldlAppend_data chunks "", ?_, ?_, ?_, ?_, ?_⟩
  · simpa [command_status_output] using
      List.take_prefix n (chunks.foldl (fun a c => a ++ c) "").data
  · simp [command_status_output]
  · simpa [command_status_output] using
      List.drop_suffix ((chunks.foldl (fun a c => a ++ c) "").data.length - n)
        (chunks.foldl (fun a c => a ++ c) "").data
  · simp [command_status_output]
    omega
  · intro h
    constructor
    · show String.mk ((chunks.foldl (fun a c => a ++ c) "").data.take n) = _
      rw [List.take_of_length_le h]
    · show String.mk ((chunks.foldl (fun a c => a ++ c) "").data.drop _) = _
      rw [Nat.sub_eq_zero_of_le h, List.drop_zero]

/-- Witness for the C6 theorem at the output chunks of
`test_command_status_basic`, with a budget exceeding the total length. -/
theorem command_status_window_spec_witness :
    ((["Line 1\n", "Line 2\n", "Line 3\n"].foldl (fun a c => a ++ c) "").data.length ≤ 100) ∧
    command_status_output ["Line 1\n", "Line 2\n", "Line 3\n"] .top 100 =
      ["Line 1\n", "Line 2\n", "Line 3\n"].foldl (fun a c => a ++ c) "" ∧
    command_status_output ["Line 1\n", "Line 2\n", "Line 3\n"] .bottom 100 =
      ["Line 1\n", "Line 2\n", "Line 3\n"].foldl (fun a c => a ++ c) "" :=
  ⟨by decide,
    ((command_status_window_spec ["Line 1\n", "Line 2\n", "Line 3\n"] 100).2.2.2.2.2
      (by decide)).1,
    ((command_status_window_spec ["Line 1\n", "Line 2\n", "Line 3\n"] 100).2.2.2.2.2
      (by decide)).2⟩

/-- C7: every embedded tool is a total function into result strings, and
every failure is converted at the tool boundary into a descriptive message
instead of propagating: with no working directory configured every tool
returns the fixed instruction message; a validation failure `e` is
returned as "Error: " ++ e by every file tool; a missing file and an
undecodable file yield their descriptive `read_file` messages. -/
theorem tools_error_conversion (st : SState) (w p sub pat content v c e : String) :
    (wdOf st = none → read_file st p = noWdMsg) ∧
    (wdOf st = none → (write_file st p content).1 = noWdMsg) ∧
    (wdOf st = none → (create_directory st p).1 = noWdMsg) ∧
    (wdOf st = none → list_dir st sub = noWdMsg) ∧
    (wdOf st = none → search_files st pat sub = noWdMsg) ∧
    (wdOf st = some w →
      validate_path (envOf st) st.fs (if ¬ isabs p then joinPath w p else p) w = .error e →
      read_file st p = "Error: " ++ e) ∧
    (wdOf st = some w →
      validate_path (envOf st) st.fs (if ¬ isabs p then joinPath w p else p) w = .error e →
      (write_file st p content).1 = "Error: " ++ e) ∧
    (wdOf st = some w →
      validate_path (envOf st) st.fs (if ¬ isabs p then joinPath w p else p) w = .error e →
      (create_directory st p).1 = "Error: " ++ e) ∧
    (wdOf st = some w →
      validate_path (envOf st) st.fs (if sub ≠ "" then joinPath w sub else w) w = .error e →
      list_dir st sub = "Error: " ++ e) ∧
    (wdOf st = some w →
      validate_path (envOf st) st.fs (if sub ≠ "" then joinPath w sub else w) w = .error e →
      search_files st pat sub = "Error: " ++ e) ∧
    (wdOf st = some w →
      validate_path (envOf st) st.fs (if ¬ isabs p then joinPath w p else p) w = .ok v →
      pathExists st.fs st.cwd v = false →
      read_file st p = "El archivo no existe: " ++ v) ∧
    (wdOf st = some w →
      validate_path (envOf st) st.fs (if ¬ isabs p then joinPath w p else p) w = .ok v →
      lookupFS st.fs (realpath st.fs st.cwd v) = some (.file c false true) →
      read_file st p =
        "Error: El archivo no está en formato texto o tiene una codificación no soportada") := by
  refine ⟨?_, ?_, ?_, ?_, ?_, ?_, ?_, ?_, ?_, ?_, ?_, ?_⟩
  · intro h; simp [read_file, h]
  · intro h; simp [write_file, h]
  · intro h; simp [create_directory, h]
  · intro h; simp [list_dir, h]
  · intro h; simp [search_files, h]
  · intro hw hv; simp only [ne_eq, Bool.not_eq_true, ite_not] at hv; simp [read_file, hw, hv]
  · intro hw hv; simp only [ne_eq, Bool.not_eq_true, ite_not] at hv; simp [write_file, hw, hv]
  · intro hw hv; simp only [ne_eq, Bool.not_eq_true, ite_not] at hv
    simp [create_directory, hw, hv]
  · intro hw hv; simp only [ne_eq, Bool.not_eq_true, ite_not] at hv; simp [list_dir, hw, hv]
  · intro hw hv; simp only [ne_eq, Bool.not_eq_true, ite_not] at hv; simp [search_files, hw, hv]
  · intro hw hv hex; simp only [ne_eq, Bool.not_eq_true, ite_not] at hv
    simp [read_file, hw, hv, hex]
  · intro hw hv hlook; simp only [ne_eq, Bool.not_eq_true, ite_not] at hv
    simp [read_file, hw, hv, pathExists, isfileFS, hlook]

/-- Witness for the C7 theorem: the no-working-directory message for a
state without one, and the converted validation error for a path outside
the root. -/
theorem tools_error_conversion_witness :
    (wdOf stNoWd = none ∧ read_file stNoWd "x.txt" = noWdMsg) ∧
    (wdOf stOverwrite = some "/ws" ∧
      validate_path (envOf stOverwrite) stOverwrite.fs
        (if ¬ isabs "/etc/passwd" then joinPath "/ws" "/etc/passwd" else "/etc/passwd") "/ws" =
        .error "Acceso denegado - ruta fuera del directorio de trabajo: /etc/passwd no está en /ws" ∧
      read_file stOverwrite "/etc/passwd" =
        "Error: Acceso denegado - ruta fuera del directorio de trabajo: /etc/passwd no está en /ws") :=
  ⟨⟨rfl, (tools_error_conversion stNoWd "" "x.txt" "" "" "" "" "" "").1 rfl⟩,
    ⟨rfl, rfl,
      (tools_error_conversion stOverwrite "/ws" "/etc/passwd" "" "" "" "" ""
        "Acceso denegado - ruta fuera del directorio de trabajo: /etc/passwd no está en /ws").2.2.2.2.2.1
        rfl rfl⟩⟩

/-- Appending on the right preserves a leading slash. -/
theorem isabs_append_left (a b : String) (h : isabs a = true) : isabs (a ++ b) = true := by
  unfold isabs at h ⊢
  rw [String.data_append]
  cases hd : a.data with
  | nil => rw [hd] at h; simp at h
  | cons c cs => rw [hd] at h; simp at h; simp [h]

/-- The embedded `posixpath.join` yields an absolute path when its first argument is
absolute. -/
theorem isabs_joinPath (a b : String) (h : isabs a = true) : isabs (joinPath a b) = true := by
  unfold joinPath
  split
  · rename_i hb
    unfold pyStartswith at hb
    unfold isabs
    cases hd : b.data with
    | nil => rw [hd] at hb; simp [listPre] at hb
    | cons c cs => rw [hd] at hb; simp [listPre] at hb; simp [hb.symm]
  · split
    · exact isabs_append_left a b h
    · exact isabs_append_left _ b (isabs_append_left a "/" h)

/-- The embedded `posixpath.normpath` preserves absoluteness. -/
theorem isabs_normpath (p : String) (h : isabs p = true) : isabs (normpath p) = true := by
  have hne : ¬ p = "" := by
    intro he; rw [he] at h; simp [isabs] at h
  have hpre : listPre ['/'] p.data = true := by
    unfold isabs at h
    cases hd : p.data with
    | nil => rw [hd] at h; simp at h
    | cons c cs =>
      rw [hd] at h
      simp at h
      simp [listPre, h]
  unfold normpath
  rw [if_neg hne]
  simp only [hpre, if_true]
  by_cases h2 : (listPre ['/', '/'] p.data = true ∧ ¬ listPre ['/', '/', '/'] p.data = true)
  · simp only [if_pos h2]
    simp [isabs]
  · simp only [if_neg h2]
    simp [isabs]

/-- The embedded `posixpath.abspath` yields an absolute path when the current directory
is absolute. -/
theorem isabs_abspath (cwd p : String) (h : isabs cwd = true) : isabs (abspath cwd p) = true := by
  unfold abspath
  split
  · rename_i hp
    exact isabs_normpath p hp
  · exact isabs_normpath _ (isabs_joinPath cwd p h)

/-- A directory exists. -/
theorem pathExists_of_isdir (fs : FS) (cwd p : String) (h : isdirFS fs cwd p = true) :
    pathExists fs cwd p = true := by
  unfold isdirFS at h
  unfold pathExists
  cases hl : lookupFS fs (realpath fs cwd p) with
  | none => rw [hl] at h; simp at h
  | some e => simp

/-- C8: `set_working_directory` stores exactly the normalized absolute form
of its argument as the working directory, changes the process's current
directory to it, creates it (via `os.makedirs`) when absent, returns an
error without touching the state when the path exists but is not a
directory, replaces any previous value irrespective of what it was, and the
stored value is absolute whenever the current directory is; the
state-returning file tools (`write_file`, `create_directory`) never modify
the working directory, so `set_working_directory` is the only operation
that establishes it. -/
theorem set_working_directory_establishes_root (st : SState) (dp : String) :
    (pathExists st.fs st.cwd (normalize_path (abspath st.cwd (expand_home st.home dp))) = false →
      set_working_directory st dp =
        ("Directorio de trabajo establecido: " ++
            normalize_path (abspath st.cwd (expand_home st.home dp)),
          { st with
              fs := makedirsFS st.fs st.cwd
                (normalize_path (abspath st.cwd (expand_home st.home dp))),
              working_directory :=
                some (normalize_path (abspath st.cwd (expand_home st.home dp))),
              cwd := normalize_path (abspath st.cwd (expand_home st.home dp)) })) ∧
    (isdirFS st.fs st.cwd (normalize_path (abspath st.cwd (expand_home st.home dp))) = true →
      set_working_directory st dp =
        ("Directorio de trabajo establecido: " ++
            normalize_path (abspath st.cwd (expand_home st.home dp)),
          { st with
              working_directory :=
                some (normalize_path (abspath st.cwd (expand_home st.home dp))),
              cwd := normalize_path (abspath st.cwd (expand_home st.home dp)) })) ∧
    (pathExists st.fs st.cwd (normalize_path (abspath st.cwd (expand_home st.home dp))) = true →
      isdirFS st.fs st.cwd (normalize_path (abspath st.cwd (expand_home st.home dp))) = false →
      set_working_directory st dp =
        ("La ruta no es un directorio: " ++
            normalize_path (abspath st.cwd (expand_home st.home dp)), st)) ∧
    (isabs st.cwd = true →
      isabs (normalize_path (abspath st.cwd (expand_home st.home dp))) = true) ∧
    (∀ p c, (write_file st p c).2.working_directory = st.working_directory) ∧
    (∀ p, (create_directory st p).2.working_directory = st.working_directory) ∧
    (∀ o, (set_working_directory { st with working_directory := o } dp).1 =
        (set_working_directory st dp).1) ∧
    (∀ o, pathExists st.fs st.cwd (normalize_path (abspath st.cwd (expand_home st.home dp))) = false ∨
        isdirFS st.fs st.cwd (normalize_path (abspath st.cwd (expand_home st.home dp))) = true →
      (set_working_directory { st with working_directory := o } dp).2.working_directory =
        some (normalize_path (abspath st.cwd (expand_home st.home dp)))) := by
  refine ⟨?_, ?_, ?_, ?_, ?_, ?_, ?_, ?_⟩
  · intro h; simp [set_working_directory, h]
  · intro h
    have hex := pathExists_of_isdir st.fs st.cwd _ h
    simp [set_working_directory, hex, h]
  · intro h1 h2; simp [set_working_directory, h1, h2]
  · intro h
    exact isabs_normpath _ (isabs_abspath st.cwd _ h)
  · intro p c
    rcases hw : wdOf st with _ | w
    · simp [write_file, hw]
    · simp only [write_file, hw]
      rcases hv : validate_path (envOf st) st.fs (if ¬ isabs p then joinPath w p else p) w with e | v
      · simp only [ne_eq, Bool.not_eq_true, ite_not] at hv
        simp [hv]
      · simp only [ne_eq, Bool.not_eq_true, ite_not] at hv
        simp only [hv]
        split_ifs <;> rfl
  · intro p
    rcases hw : wdOf st with _ | w
    · simp [create_directory, hw]
    · simp only [create_directory, hw]
      rcases hv : validate_path (envOf st) st.fs (if ¬ isabs p then joinPath w p else p) w with e | v
      · simp only [ne_eq, Bool.not_eq_true, ite_not] at hv
        simp [hv]
      · simp only [ne_eq, Bool.not_eq_true, ite_not] at hv
        simp [hv]
  · intro o
    simp only [set_working_directory]
    split_ifs <;> rfl
  · intro o h
    rcases h with h | h
    · simp [set_working_directory, h]
    · have hex := pathExists_of_isdir st.fs st.cwd _ h
      simp [set_working_directory, hex, h]

/-- Witness for the C8 theorem: creating and establishing `/new/dir` from a
fresh state. -/
theorem set_working_directory_establishes_root_witness :
    pathExists stNoWd.fs stNoWd.cwd
        (normalize_path (abspath stNoWd.cwd (expand_home stNoWd.home "/new/dir"))) = false ∧
    set_working_directory stNoWd "/new/dir" =
      ("Directorio de trabajo establecido: " ++
          normalize_path (abspath stNoWd.cwd (expand_home stNoWd.home "/new/dir")),
        { stNoWd with
            fs := makedirsFS stNoWd.fs stNoWd.cwd
              (normalize_path (abspath stNoWd.cwd (expand_home stNoWd.home "/new/dir"))),
            working_directory :=
              some (normalize_path (abspath stNoWd.cwd (expand_home stNoWd.home "/new/dir"))),
            cwd := normalize_path (abspath stNoWd.cwd (expand_home stNoWd.home "/new/dir")) }) :=
  ⟨by decide, (set_working_directory_establishes_root stNoWd "/new/dir").1 (by decide)⟩

/-- When rendering all rows succeeds, there is exactly one row per item and
each row is the rendering of its item. -/
theorem renderRows_ok (fs : FS) (cwd valid : String) :
    ∀ (items rows : List String), renderRows fs cwd valid items = .ok rows →
      rows.length = items.length ∧
      ∀ i item, items.get? i = some item →
        ∃ r, renderRow fs cwd valid item = .ok r ∧ rows.get? i = some r := by
  intro items
  induction items with
  | nil =>
    intro rows h
    simp only [renderRows] at h
    cases h
    exact ⟨rfl, by intro i item hi; simp at hi⟩
  | cons it rest ih =>
    intro rows h
    simp only [renderRows] at h
    cases hr : renderRow fs cwd valid it with
    | error e => rw [hr] at h; cases h
    | ok r =>
      rw [hr] at h
      cases hrs : renderRows fs cwd valid rest with
      | error e => rw [hrs] at h; cases h
      | ok rs =>
        rw [hrs] at h
        cases h
        obtain ⟨hlen, hidx⟩ := ih rs hrs
        refine ⟨by simp [hlen], ?_⟩
        intro i item hi
        cases i with
        | zero =>
          simp at hi
          subst hi
          exact ⟨r, hr, rfl⟩
        | succ n =>
          simp at hi
          obtain ⟨r2, hr2, hrow2⟩ := hidx n item (by simpa using hi)
          exact ⟨r2, hr2, by simpa using hrow2⟩

/-- C9: when the listed directory is readable and every entry can be
rendered (no escaping non-permission exception), `list_dir` produces one
row per child in sorted order; a child directory that cannot be listed
contributes exactly the inline "(sin acceso)" row at its position, while
accessible children still contribute their normal rows — the listing is
not aborted. -/
theorem list_dir_per_entry_degradation (st : SState) (w sub valid : String) (rows : List String)
    (hw : wdOf st = some w)
    (hv : validate_path (envOf st) st.fs (if sub ≠ "" then joinPath w sub else w) w = .ok valid)
    (hd : lookupFS st.fs (realpath st.fs st.cwd valid) = some (.dir true))
    (hrows : renderRows st.fs st.cwd valid
      (sortStrings (childrenNames st.fs (realpath st.fs st.cwd valid))) = .ok rows)
    (hne : rows ≠ []) :
    list_dir st sub = intercalStr "\n" rows ∧
    rows.length = (sortStrings (childrenNames st.fs (realpath st.fs st.cwd valid))).length ∧
    (∀ i item,
      (sortStrings (childrenNames st.fs (realpath st.fs st.cwd valid))).get? i = some item →
      lookupFS st.fs (realpath st.fs st.cwd (joinPath valid item)) = some (.dir false) →
      rows.get? i = some (item ++ "\tdir\t(sin acceso)")) ∧
    (∀ i item content,
      (sortStrings (childrenNames st.fs (realpath st.fs st.cwd valid))).get? i = some item →
      lookupFS st.fs (realpath st.fs st.cwd (joinPath valid item)) =
        some (.file content true true) →
      rows.get? i = some (item ++ "\tfile\t" ++ toString (sizeBytes content) ++ " bytes")) := by
  have hex : pathExists st.fs st.cwd valid = true := by simp [pathExists, hd]
  have hdir : isdirFS st.fs st.cwd valid = true := by simp [isdirFS, hd]
  refine ⟨?_, (renderRows_ok st.fs st.cwd valid _ rows hrows).1, ?_, ?_⟩
  · simp only [list_dir, hw]
    rw [hv]
    simp only [hex, hdir]
    rw [hd]
    simp only []
    rw [hrows]
    cases rows with
    | nil => exact absurd rfl hne
    | cons a as => simp
  · intro i item hi hlook
    obtain ⟨r, hr, hrow⟩ := (renderRows_ok st.fs st.cwd valid _ rows hrows).2 i item hi
    have hcalc : renderRow st.fs st.cwd valid item = .ok (item ++ "\tdir\t(sin acceso)") := by
      simp [renderRow, isdirFS, hlook]
    rw [hcalc] at hr
    cases hr
    exact hrow
  · intro i item content hi hlook
    obtain ⟨r, hr, hrow⟩ := (renderRows_ok st.fs st.cwd valid _ rows hrows).2 i item hi
    have hcalc : renderRow st.fs st.cwd valid item =
        .ok (item ++ "\tfile\t" ++ toString (sizeBytes content) ++ " bytes") := by
      simp [renderRow, isdirFS, hlook]
    rw [hcalc] at hr
    cases hr
    exact hrow

/-- Witness for the C9 theorem: the unreadable directory `closed` yields an
inline "(sin acceso)" row while the other entries are still listed. -/
theorem list_dir_per_entry_degradation_witness :
    wdOf stPerm = some "/ws" ∧
    validate_path (envOf stPerm) stPerm.fs
      (if ("" : String) ≠ "" then joinPath "/ws" "" else "/ws") "/ws" = .ok "/ws" ∧
    lookupFS stPerm.fs (realpath stPerm.fs stPerm.cwd "/ws") = some (.dir true) ∧
    renderRows stPerm.fs stPerm.cwd "/ws"
      (sortStrings (childrenNames stPerm.fs (realpath stPerm.fs stPerm.cwd "/ws"))) =
      .ok ["a.txt\tfile\t5 bytes", "closed\tdir\t(sin acceso)", "open\tdir\t0 elementos"] ∧
    list_dir stPerm "" =
      "a.txt\tfile\t5 bytes\nclosed\tdir\t(sin acceso)\nopen\tdir\t0 elementos" ∧
    (["a.txt\tfile\t5 bytes", "closed\tdir\t(sin acceso)", "open\tdir\t0 elementos"] :
        List String).get? 1 = some ("closed" ++ "\tdir\t(sin acceso)") :=
  ⟨rfl, rfl, by decide, rfl,
    Eq.trans
      ((list_dir_per_entry_degradation stPerm "/ws" "" "/ws"
        ["a.txt\tfile\t5 bytes", "closed\tdir\t(sin acceso)", "open\tdir\t0 elementos"]
        rfl rfl (by decide) rfl (by decide)).1)
      (by decide),
    (list_dir_per_entry_degradation stPerm "/ws" "" "/ws"
        ["a.txt\tfile\t5 bytes", "closed\tdir\t(sin acceso)", "open\tdir\t0 elementos"]
        rfl rfl (by decide) rfl (by decide)).2.2.1 1 "closed" (by decide) (by decide)⟩

/-- C10: `search_files` reports exactly the entries enumerated by the
directory walk of the validated search path whose name contains the
pattern as a case-insensitive substring: every result row comes from such
an entry and is formatted as its path relative to the working directory
tagged with its kind, every such entry contributes its row, and an entry
whose name does not match never appears; when nothing matches the
no-matches message is returned. -/
theorem search_files_exact_matches (st : SState) (w pat sub valid : String)
    (hw : wdOf st = some w)
    (hv : validate_path (envOf st) st.fs (if sub ≠ "" then joinPath w sub else w) w = .ok valid) :
    (searchRows st.fs st.cwd w pat valid ≠ [] →
      search_files st pat sub = intercalStr "\n" (searchRows st.fs st.cwd w pat valid)) ∧
    (searchRows st.fs st.cwd w pat valid = [] →
      search_files st pat sub =
        "No se encontraron coincidencias para " ++ squote ++ pat ++ squote) ∧
    (∀ r ∈ searchRows st.fs st.cwd w pat valid,
      ∃ root ds fls name,
        (root, ds, fls) ∈ walkFS st.fs st.cwd (st.fs.length + 1) valid ∧
        name ∈ fls ++ ds ∧
        listSub (lowerChars pat.data) (lowerChars name.data) = true ∧
        r = relpathPosix st.cwd (joinPath root name) w ++ "\t" ++
          (if isdirFS st.fs st.cwd (joinPath root name) then "dir" else "file")) ∧
    (∀ root ds fls name,
      (root, ds, fls) ∈ walkFS st.fs st.cwd (st.fs.length + 1) valid →
      name ∈ fls ++ ds →
      listSub (lowerChars pat.data) (lowerChars name.data) = true →
      (relpathPosix st.cwd (joinPath root name) w ++ "\t" ++
        (if isdirFS st.fs st.cwd (joinPath root name) then "dir" else "file"))
        ∈ searchRows st.fs st.cwd w pat valid) := by
  refine ⟨?_, ?_, ?_, ?_⟩
  · intro h
    simp only [search_files, hw]
    rw [hv]
    simp only []
    rw [if_neg h]
  · intro h
    simp only [search_files, hw]
    rw [hv]
    simp only []
    rw [if_pos h]
  · intro r hr
    simp only [searchRows, List.mem_flatMap, List.mem_map, List.mem_filter] at hr
    obtain ⟨⟨root, ds, fls⟩, hnode, name, ⟨hname, hmatch⟩, hr⟩ := hr
    exact ⟨root, ds, fls, name, hnode, hname, hmatch, hr.symm⟩
  · intro root ds fls name hnode hname hmatch
    simp only [searchRows, List.mem_flatMap, List.mem_map, List.mem_filter]
    exact ⟨(root, ds, fls), hnode, name, ⟨hname, hmatch⟩, rfl⟩

/-- Witness for the C10 theorem: the pattern `A` matches the file `a.txt`
case-insensitively and nothing else in `fsPerm`. -/
theorem search_files_exact_matches_witness :
    wdOf stPerm = some "/ws" ∧
    validate_path (envOf stPerm) stPerm.fs
      (if ("" : String) ≠ "" then joinPath "/ws" "" else "/ws") "/ws" = .ok "/ws" ∧
    searchRows stPerm.fs stPerm.cwd "/ws" "A" "/ws" = ["a.txt\tfile"] ∧
    search_files stPerm "A" "" = "a.txt\tfile" :=
  ⟨rfl, rfl, by decide,
    Eq.trans ((search_files_exact_matches stPerm "/ws" "A" "" "/ws" rfl rfl).1 (by decide))
      (by decide)⟩
